import Mathlib

/-!
Verification of the two operational scripts of this repository:
`src/infrastructure/mlflow/start-mlflow.py` (the MLflow tracking-server
launcher) and `src/examples/test_inference.py` (the KServe endpoint test
client).  Python process environments are modelled as partial maps from
variable names to strings, JSON values as an inductive type, floats as
rationals, and the single HTTP call of the client as an explicit outcome
parameter.
-/

/-- Process environment: a partial map from variable names to string values,
modelling Python `os.environ` (a key may be unset, `none`). -/
abbrev Env := String → Option String

/-- Models Python `os.environ.get(k, d)`: the value of `k`, or `d` if unset. -/
def envGet (e : Env) (k d : String) : String := (e k).getD d

/-- Models Python `os.environ[k] = v`: update the environment at one key. -/
def envSet (e : Env) (k v : String) : Env :=
  fun k2 => if k2 = k then some v else e k2

/-- Build an environment from an association list (for concrete instances). -/
def envOfList (l : List (String × String)) : Env :=
  fun k => (l.find? (fun p => p.1 == k)).map (fun p => p.2)

/-- Pythonic blankness of an environment variable: unset or the empty string
(in Python both are falsy for the checks `if not os.environ[...]`). -/
def blankVar (e : Env) (k : String) : Prop := (e k).getD "" = ""

instance (e : Env) (k : String) : Decidable (blankVar e k) := by
  unfold blankVar; infer_instance

/-- Outcome of running the launcher script `start-mlflow.py`: either
`sys.exit(code)` with the error message printed to stderr, or the
`os.execvp(prog, cmd)` process replacement with the final environment. -/
inductive LauncherResult where
  | exit (code : Nat) (msg : String)
  | exec (prog : String) (cmd : List String) (env : Env)

/-- Exit code of a launcher outcome, `none` when the launcher exec'd. -/
def LauncherResult.exitCode? : LauncherResult → Option Nat
  | .exit c _ => some c
  | .exec _ _ _ => none

/-- Environment mutation block of `start-mlflow.py` (lines 10-13): forces
`AWS_ACCESS_KEY_ID` and `AWS_SECRET_ACCESS_KEY` to their current values
(empty string when unset) and overwrites both region variables with
`us-east-1`. -/
def envAfterSetup (env0 : Env) : Env :=
  let env1 := envSet env0 "AWS_ACCESS_KEY_ID" (envGet env0 "AWS_ACCESS_KEY_ID" "")
  let env2 := envSet env1 "AWS_SECRET_ACCESS_KEY" (envGet env1 "AWS_SECRET_ACCESS_KEY" "")
  let env3 := envSet env2 "AWS_DEFAULT_REGION" "us-east-1"
  envSet env3 "AWS_REGION" "us-east-1"

/-- Fixed mlflow server command line of `start-mlflow.py` (lines 28-37);
only the backend-store-uri argument is interpolated. -/
def mlflowCmd (backend_store_uri : String) : List String :=
  [ "mlflow", "server",
    "--host=0.0.0.0",
    "--port=5000",
    "--backend-store-uri=" ++ backend_store_uri,
    "--artifacts-destination=s3://mlflow-bucket",
    "--default-artifact-root=mlflow-artifacts:/",
    "--serve-artifacts",
    "--allowed-hosts=*" ]

/-- Module body of `start-mlflow.py`: mutate the environment, exit 1 when
`AWS_ACCESS_KEY_ID` is blank, exit 1 when `MLFLOW_BACKEND_STORE_URI` is
unset or empty (Python falsiness of `os.environ.get` without default),
otherwise exec the mlflow server command. -/
def start_mlflow (env0 : Env) : LauncherResult :=
  let env := envAfterSetup env0
  if envGet env "AWS_ACCESS_KEY_ID" "" = "" then
    .exit 1 "ERROR: AWS_ACCESS_KEY_ID not set!"
  else
    let backend_store_uri := env "MLFLOW_BACKEND_STORE_URI"
    if backend_store_uri.getD "" = "" then
      .exit 1 "ERROR: MLFLOW_BACKEND_STORE_URI not set!"
    else
      .exec "mlflow" (mlflowCmd (backend_store_uri.getD "")) env

theorem envSet_same (e : Env) (k v : String) : envSet e k v k = some v := by
  simp [envSet]

theorem envSet_other (e : Env) (k v k2 : String) (h : k2 ≠ k) :
    envSet e k v k2 = e k2 := by
  simp [envSet, h]

theorem envAfterSetup_access (env0 : Env) :
    envAfterSetup env0 "AWS_ACCESS_KEY_ID" =
      some ((env0 "AWS_ACCESS_KEY_ID").getD "") := by
  simp [envAfterSetup, envSet, envGet]

theorem envAfterSetup_secret (env0 : Env) :
    envAfterSetup env0 "AWS_SECRET_ACCESS_KEY" =
      some ((env0 "AWS_SECRET_ACCESS_KEY").getD "") := by
  simp [envAfterSetup, envSet, envGet]

theorem envAfterSetup_backend (env0 : Env) :
    envAfterSetup env0 "MLFLOW_BACKEND_STORE_URI" =
      env0 "MLFLOW_BACKEND_STORE_URI" := by
  simp [envAfterSetup, envSet, envGet]

/-- Command line of a launcher outcome, `none` when the launcher exited. -/
def LauncherResult.cmd? : LauncherResult → Option (List String)
  | .exit _ _ => none
  | .exec _ c _ => some c

theorem start_mlflow_exit_iff (env0 : Env) :
    (start_mlflow env0).exitCode? = some 1 ↔
      blankVar env0 "AWS_ACCESS_KEY_ID" ∨ blankVar env0 "MLFLOW_BACKEND_STORE_URI" := by
  unfold start_mlflow
  simp only [envGet, envAfterSetup_access, envAfterSetup_backend, Option.getD_some]
  unfold blankVar
  by_cases h1 : (env0 "AWS_ACCESS_KEY_ID").getD "" = "" <;>
    by_cases h2 : (env0 "MLFLOW_BACKEND_STORE_URI").getD "" = "" <;>
    simp [h1, h2, LauncherResult.exitCode?]

theorem start_mlflow_exec (env0 : Env)
    (h1 : ¬ blankVar env0 "AWS_ACCESS_KEY_ID")
    (h2 : ¬ blankVar env0 "MLFLOW_BACKEND_STORE_URI") :
    start_mlflow env0 =
      .exec "mlflow" (mlflowCmd ((env0 "MLFLOW_BACKEND_STORE_URI").getD ""))
        (envAfterSetup env0) := by
  unfold start_mlflow
  simp only [envGet, envAfterSetup_access, envAfterSetup_backend, Option.getD_some]
  unfold blankVar at h1 h2
  simp [h1, h2]

theorem start_mlflow_cmd (env : Env) :
    (start_mlflow env).cmd? =
      if blankVar env "AWS_ACCESS_KEY_ID" ∨ blankVar env "MLFLOW_BACKEND_STORE_URI"
      then none
      else some (mlflowCmd ((env "MLFLOW_BACKEND_STORE_URI").getD "")) := by
  by_cases hb : blankVar env "AWS_ACCESS_KEY_ID" ∨ blankVar env "MLFLOW_BACKEND_STORE_URI"
  · rw [if_pos hb]
    have hx := (start_mlflow_exit_iff env).2 hb
    cases hs : start_mlflow env with
    | exit c m => simp [LauncherResult.cmd?]
    | exec p c e => rw [hs] at hx; simp [LauncherResult.exitCode?] at hx
  · rw [if_neg hb]
    push_neg at hb
    rw [start_mlflow_exec env hb.1 hb.2]
    simp [LauncherResult.cmd?]

/-- C1: the launcher terminates with exit code 1 precisely when one of the
two required environment variables (`AWS_ACCESS_KEY_ID`,
`MLFLOW_BACKEND_STORE_URI`) is blank, and otherwise it replaces its
process image with the mlflow server command. -/
theorem launcher_exits_iff_required_blank (env0 : Env) :
    ((start_mlflow env0).exitCode? = some 1 ↔
      blankVar env0 "AWS_ACCESS_KEY_ID" ∨ blankVar env0 "MLFLOW_BACKEND_STORE_URI") ∧
    (¬ blankVar env0 "AWS_ACCESS_KEY_ID" →
      ¬ blankVar env0 "MLFLOW_BACKEND_STORE_URI" →
      start_mlflow env0 =
        .exec "mlflow" (mlflowCmd ((env0 "MLFLOW_BACKEND_STORE_URI").getD ""))
          (envAfterSetup env0)) :=
  ⟨start_mlflow_exit_iff env0, fun h1 h2 => start_mlflow_exec env0 h1 h2⟩

/-- Concrete instance of `launcher_exits_iff_required_blank`: with both
required variables set, the launcher execs the fixed command. -/
theorem launcher_exits_iff_required_blank_witness :
    ¬ blankVar (envOfList [("AWS_ACCESS_KEY_ID", "AKIAEXAMPLE"),
        ("MLFLOW_BACKEND_STORE_URI", "postgresql://mlflow:5432/db")])
        "AWS_ACCESS_KEY_ID" ∧
    start_mlflow (envOfList [("AWS_ACCESS_KEY_ID", "AKIAEXAMPLE"),
        ("MLFLOW_BACKEND_STORE_URI", "postgresql://mlflow:5432/db")]) =
      .exec "mlflow" (mlflowCmd "postgresql://mlflow:5432/db")
        (envAfterSetup (envOfList [("AWS_ACCESS_KEY_ID", "AKIAEXAMPLE"),
          ("MLFLOW_BACKEND_STORE_URI", "postgresql://mlflow:5432/db")])) :=
  ⟨by decide,
   by
    have h := (launcher_exits_iff_required_blank
      (envOfList [("AWS_ACCESS_KEY_ID", "AKIAEXAMPLE"),
        ("MLFLOW_BACKEND_STORE_URI", "postgresql://mlflow:5432/db")])).2
      (by decide) (by decide)
    simpa [envOfList] using h⟩

/-- C6: whenever the launcher proceeds, its command line is exactly the
fixed mlflow server flag list with only the backend-store-uri value taken
from the environment; two environments agreeing on
`MLFLOW_BACKEND_STORE_URI` that both proceed produce the same command. -/
theorem launcher_cmd_fixed (env0 : Env) :
    ((start_mlflow env0).cmd? =
      if blankVar env0 "AWS_ACCESS_KEY_ID" ∨ blankVar env0 "MLFLOW_BACKEND_STORE_URI"
      then none
      else some (mlflowCmd ((env0 "MLFLOW_BACKEND_STORE_URI").getD ""))) ∧
    (∀ env1 : Env,
      env0 "MLFLOW_BACKEND_STORE_URI" = env1 "MLFLOW_BACKEND_STORE_URI" →
      ∀ c0 c1, (start_mlflow env0).cmd? = some c0 →
        (start_mlflow env1).cmd? = some c1 → c0 = c1) := by
  refine ⟨start_mlflow_cmd env0, ?_⟩
  intro env1 hagree c0 c1 h0 h1
  rw [start_mlflow_cmd env0] at h0
  rw [start_mlflow_cmd env1] at h1
  by_cases b0 : blankVar env0 "AWS_ACCESS_KEY_ID" ∨ blankVar env0 "MLFLOW_BACKEND_STORE_URI"
  · rw [if_pos b0] at h0
    simp at h0
  · by_cases b1 : blankVar env1 "AWS_ACCESS_KEY_ID" ∨ blankVar env1 "MLFLOW_BACKEND_STORE_URI"
    · rw [if_pos b1] at h1
      simp at h1
    · rw [if_neg b0] at h0
      rw [if_neg b1] at h1
      rw [← Option.some_inj, ← h0, ← h1, hagree]

/-- Concrete instance of `launcher_cmd_fixed`: two environments that share
the backend URI but differ elsewhere produce the same command list. -/
theorem launcher_cmd_fixed_witness :
    ∃ c0 c1, (start_mlflow (envOfList [("AWS_ACCESS_KEY_ID", "AKIA1"),
        ("MLFLOW_BACKEND_STORE_URI", "sqlite:///mlflow.db"),
        ("UNRELATED", "x")])).cmd? = some c0 ∧
      (start_mlflow (envOfList [("AWS_ACCESS_KEY_ID", "AKIA2"),
        ("MLFLOW_BACKEND_STORE_URI", "sqlite:///mlflow.db")])).cmd? = some c1 ∧
      c0 = c1 := by
  have e0 : (start_mlflow (envOfList [("AWS_ACCESS_KEY_ID", "AKIA1"),
      ("MLFLOW_BACKEND_STORE_URI", "sqlite:///mlflow.db"),
      ("UNRELATED", "x")])).cmd? = some (mlflowCmd "sqlite:///mlflow.db") := by
    rw [(launcher_cmd_fixed _).1]
    simp [blankVar, envOfList]
  have e1 : (start_mlflow (envOfList [("AWS_ACCESS_KEY_ID", "AKIA2"),
      ("MLFLOW_BACKEND_STORE_URI", "sqlite:///mlflow.db")])).cmd? =
      some (mlflowCmd "sqlite:///mlflow.db") := by
    rw [(launcher_cmd_fixed _).1]
    simp [blankVar, envOfList]
  exact ⟨mlflowCmd "sqlite:///mlflow.db", mlflowCmd "sqlite:///mlflow.db",
    e0, e1,
    (launcher_cmd_fixed (envOfList [("AWS_ACCESS_KEY_ID", "AKIA1"),
      ("MLFLOW_BACKEND_STORE_URI", "sqlite:///mlflow.db"),
      ("UNRELATED", "x")])).2
      (envOfList [("AWS_ACCESS_KEY_ID", "AKIA2"),
        ("MLFLOW_BACKEND_STORE_URI", "sqlite:///mlflow.db")])
      (by decide) _ _ e0 e1⟩

/-- C7: the environment-setup block unconditionally writes `us-east-1` into
both region variables, touches no key other than the four AWS/credential
keys, and the environment handed to the exec'd server is exactly the
environment produced by that block. -/
theorem launcher_env_frame (env0 : Env) :
    envAfterSetup env0 "AWS_DEFAULT_REGION" = some "us-east-1" ∧
    envAfterSetup env0 "AWS_REGION" = some "us-east-1" ∧
    (∀ k : String, k ≠ "AWS_ACCESS_KEY_ID" → k ≠ "AWS_SECRET_ACCESS_KEY" →
      k ≠ "AWS_DEFAULT_REGION" → k ≠ "AWS_REGION" →
      envAfterSetup env0 k = env0 k) ∧
    (∀ prog cmd e, start_mlflow env0 = .exec prog cmd e → e = envAfterSetup env0) := by
  refine ⟨by simp [envAfterSetup, envSet], by simp [envAfterSetup, envSet], ?_, ?_⟩
  · intro k h1 h2 h3 h4
    simp [envAfterSetup, envSet, h1, h2, h3, h4]
  · intro prog cmd e h
    by_cases hb : blankVar env0 "AWS_ACCESS_KEY_ID" ∨ blankVar env0 "MLFLOW_BACKEND_STORE_URI"
    · have hx := (start_mlflow_exit_iff env0).2 hb
      rw [h] at hx
      simp [LauncherResult.exitCode?] at hx
    · push_neg at hb
      have hx := start_mlflow_exec env0 hb.1 hb.2
      rw [h] at hx
      injection hx with hp hc he

/-- Concrete instance of `launcher_env_frame`: an unrelated variable `HOME`
survives the setup block unchanged while the regions are overwritten. -/
theorem launcher_env_frame_witness :
    envAfterSetup (envOfList [("HOME", "/root")]) "AWS_REGION" = some "us-east-1" ∧
    envAfterSetup (envOfList [("HOME", "/root")]) "HOME" =
      envOfList [("HOME", "/root")] "HOME" :=
  ⟨(launcher_env_frame (envOfList [("HOME", "/root")])).2.1,
   (launcher_env_frame (envOfList [("HOME", "/root")])).2.2.1 "HOME"
     (by decide) (by decide) (by decide) (by decide)⟩

/-- C8: when the access key and the backend URI are non-blank but the secret
key is blank or unset, the launcher does not exit: it execs the server with
the secret key forwarded (as the empty string when it was unset). -/
theorem secret_key_not_validated (env0 : Env)
    (h1 : ¬ blankVar env0 "AWS_ACCESS_KEY_ID")
    (h2 : ¬ blankVar env0 "MLFLOW_BACKEND_STORE_URI")
    (h3 : blankVar env0 "AWS_SECRET_ACCESS_KEY") :
    ∃ e : Env, start_mlflow env0 =
        .exec "mlflow" (mlflowCmd ((env0 "MLFLOW_BACKEND_STORE_URI").getD "")) e ∧
      e "AWS_SECRET_ACCESS_KEY" = some "" := by
  refine ⟨envAfterSetup env0, start_mlflow_exec env0 h1 h2, ?_⟩
  rw [envAfterSetup_secret env0]
  unfold blankVar at h3
  rw [h3]

/-- Concrete instance of `secret_key_not_validated`: secret key absent, the
launcher still execs and forwards the empty string. -/
theorem secret_key_not_validated_witness :
    ∃ e : Env, start_mlflow (envOfList [("AWS_ACCESS_KEY_ID", "AKIA3"),
        ("MLFLOW_BACKEND_STORE_URI", "mysql://db")]) =
      .exec "mlflow" (mlflowCmd "mysql://db") e ∧
      e "AWS_SECRET_ACCESS_KEY" = some "" := by
  have h := secret_key_not_validated
    (envOfList [("AWS_ACCESS_KEY_ID", "AKIA3"), ("MLFLOW_BACKEND_STORE_URI", "mysql://db")])
    (by decide) (by decide) (by decide)
  simpa [envOfList] using h

/-- Source of random draws used by `generate_sample_transaction`, modelling
the numpy calls `np.random.randn(n)` (which returns exactly `n` draws) and
`np.random.gamma(shape, scale)` (one draw).  Float draws are modelled as
rationals. -/
structure RNG where
  randn : Nat → List ℚ
  gamma : ℚ → ℚ → ℚ
  randn_length : ∀ n, (randn n).length = n

/-- Models `generate_sample_transaction` of `test_inference.py` (lines
13-28): 28 features (shifted by 2 in the fraud branch) followed by one
gamma-distributed amount, combined by `np.append(features, amount)`. -/
def generate_sample_transaction (rng : RNG) (fraud : Bool) : List ℚ :=
  if fraud then
    ((rng.randn 28).map (fun v => v + 2)) ++ [rng.gamma 3 100]
  else
    rng.randn 28 ++ [rng.gamma 2 50]

/-- Sample-generation loop of `test_inference` (lines 46-50): sample `i` is
fraud-like exactly when `i % 3 == 0`; `rng i` supplies the fresh random
draws consumed by the `i`-th call. -/
def mkSamples (rng : Nat → RNG) (n : Nat) : List (List ℚ) :=
  (List.range n).map (fun i => generate_sample_transaction (rng i) (i % 3 == 0))

/-- Label loop of `test_inference` (lines 48-51). -/
def mkLabels (n : Nat) : List String :=
  (List.range n).map (fun i => if i % 3 == 0 then "Fraud-like" else "Normal-like")

/-- JSON values as decoded by Python from the response body (numbers are
modelled as rationals; Python bools, being int instances, fall under
`num`). -/
inductive JValue where
  | num (x : ℚ)
  | str (s : String)
  | arr (xs : List JValue)
  | obj (fields : List (String × JValue))
  | null

/-- Python exceptions the client's display loop can raise: `pred[1]` on a
list with fewer than two elements (IndexError), or formatting a
non-numeric value with `:.4f` (TypeError/ValueError). -/
inductive PyError where
  | indexError
  | formatError

/-- Message produced by `str(e)` for the modelled exceptions. -/
def PyError.msg : PyError → String
  | .indexError => "list index out of range"
  | .formatError => "unsupported format string"

/-- Models the client's fraud-probability selection (line 83):
`pred if isinstance(pred, (int, float)) else pred[1] if isinstance(pred, list) else pred`.
Indexing a list of fewer than two elements raises IndexError. -/
def fraudProbOf (pred : JValue) : Except PyError JValue :=
  match pred with
  | .num x => .ok (.num x)
  | .arr xs =>
    match xs.get? 1 with
    | some v => .ok v
    | none => .error .indexError
  | p => .ok p

/-- Left-pad with zeros to four digits (for the fractional part). -/
def padZeros4 (n : Nat) : String :=
  let s := toString n
  String.mk (List.replicate (4 - s.length) '0') ++ s

/-- Models Python float formatting with `:.4f`: fixed four decimal places
(the exact rounding of a tie is immaterial here; rounding half away from
zero is used). -/
def formatFixed4 (q : ℚ) : String :=
  let sign := if q < 0 then "-" else ""
  let scaled := (q.num.natAbs * 20000 + q.den) / (2 * q.den)
  sign ++ toString (scaled / 10000) ++ "." ++ padZeros4 (scaled % 10000)

/-- Applying `:.4f` to a value: succeeds only on numbers, raises otherwise
(as Python does for strings, lists and None). -/
def formatProb : JValue → Except PyError String
  | .num x => .ok (formatFixed4 x)
  | _ => .error .formatError

/-- Models Python `{label:12s}`: left-justify in a field of width 12. -/
def padTo12 (s : String) : String :=
  s ++ String.mk (List.replicate (12 - s.length) ' ')

/-- One result line of the client (line 84):
`Transaction {i+1} ({label:12s}): Fraud Probability = {fraud_prob:.4f}`. -/
def resultLine (i : Nat) (label : String) (probStr : String) : String :=
  "Transaction " ++ toString (i + 1) ++ " (" ++ padTo12 label ++
    "): Fraud Probability = " ++ probStr

/-- One iteration of the client's display loop: select the fraud
probability, format it, build the printed line; either step can raise. -/
def processEntry (i : Nat) (pred : JValue) (label : String) : Except PyError String :=
  match fraudProbOf pred with
  | .error e => .error e
  | .ok v =>
    match formatProb v with
    | .error e => .error e
    | .ok s => .ok (resultLine i label s)

/-- The client's `for i, (pred, label) in enumerate(zip(predictions, labels))`
loop (lines 82-84): lines printed before the first raised exception, and
that exception if any. -/
def displayLoop : List (JValue × String) → Nat → List String × Option PyError
  | [], _ => ([], none)
  | (p, l) :: rest, i =>
    match processEntry i p l with
    | .ok line =>
      let r := displayLoop rest (i + 1)
      (line :: r.1, r.2)
    | .error e => ([], some e)

/-- Outcome of the client's single `requests.post` call: an HTTP response
(status code, body text, and the decoded `predictions` list — Python's
`result.get("predictions", [])` yields `[]` when the key is missing), a
connection error, a timeout, or any other exception. -/
inductive HttpOutcome where
  | response (status : Nat) (text : String) (predictions : List JValue)
  | connectionError
  | timeout
  | otherError (msg : String)

/-- Observable behaviour of one run of `test_inference`: the JSON bodies
POSTed (always exactly one), the per-transaction result lines printed, the
diagnostic/summary lines printed, and the process exit code. -/
structure ClientRun where
  requests : List JValue
  resultLines : List String
  diagnostics : List String
  exitCode : Nat

/-- Models `test_inference` of `test_inference.py` (lines 30-108): generate
samples and labels, POST `{"instances": samples}` once, then branch on the
HTTP outcome exactly as the script's status check and exception handlers
do. -/
def test_inference (endpoint_url : String) (num_samples : Nat)
    (rng : Nat → RNG) (outcome : HttpOutcome) : ClientRun :=
  let samples := mkSamples rng num_samples
  let labels := mkLabels num_samples
  let payload := JValue.obj [("instances",
    JValue.arr (samples.map (fun s => JValue.arr (s.map JValue.num))))]
  match outcome with
  | .response status text predictions =>
    if status = 200 then
      let r := displayLoop (predictions.zip labels) 0
      match r.2 with
      | none =>
        ⟨[payload], r.1, ["✅ All predictions completed successfully!"], 0⟩
      | some e =>
        ⟨[payload], r.1, ["❌ Error: " ++ e.msg], 1⟩
    else
      ⟨[payload], [],
        ["❌ Request failed with status code: " ++ toString status,
         "Response: " ++ text], 1⟩
  | .connectionError =>
    ⟨[payload], [],
      ["❌ Connection Error: Could not connect to " ++ endpoint_url,
       "Make sure you have port-forwarding enabled:",
       "  kubectl port-forward -n kubeflow-user-example-com svc/fraud-detection-predictor-default 8080:80"],
      1⟩
  | .timeout =>
    ⟨[payload], [], ["❌ Timeout: Request took too long"], 1⟩
  | .otherError msg =>
    ⟨[payload], [], ["❌ Error: " ++ msg], 1⟩

/-- Deterministic random source for concrete instances: every normal draw
is 0, every gamma draw is 0. -/
def rngZero : Nat → RNG :=
  fun _ => ⟨fun n => List.replicate n 0, fun _ _ => 0, fun n => by simp⟩

theorem generate_length (rng : RNG) (fraud : Bool) :
    (generate_sample_transaction rng fraud).length = 29 := by
  unfold generate_sample_transaction
  cases fraud <;> simp [rng.randn_length]

/-- C3: the client constructs exactly `num_samples` feature vectors, and
every constructed vector has exactly 29 entries (28 features plus the
amount). -/
theorem samples_count_and_length (rng : Nat → RNG) (n : Nat) :
    (mkSamples rng n).length = n ∧
    ∀ s ∈ mkSamples rng n, s.length = 29 := by
  constructor
  · simp [mkSamples]
  · intro s hs
    simp only [mkSamples, List.mem_map, List.mem_range] at hs
    obtain ⟨i, hi, rfl⟩ := hs
    exact generate_length (rng i) (i % 3 == 0)

/-- Concrete instance of `samples_count_and_length` at five samples. -/
theorem samples_count_and_length_witness :
    (mkSamples rngZero 5).length = 5 ∧
    ∀ s ∈ mkSamples rngZero 5, s.length = 29 :=
  samples_count_and_length rngZero 5

/-- C5: sample `i` is labeled `Fraud-like` exactly when `i % 3 == 0`, and
`Normal-like` otherwise. -/
theorem labels_every_third_fraud (n i : Nat) (h : i < n) :
    (mkLabels n).get? i =
      some (if i % 3 = 0 then "Fraud-like" else "Normal-like") := by
  simp [mkLabels, List.get?_eq_getElem?, List.getElem?_map, List.getElem?_range, h]

/-- Concrete instance of `labels_every_third_fraud`: among five samples,
index 3 is Fraud-like and index 4 is Normal-like. -/
theorem labels_every_third_fraud_witness :
    (mkLabels 5).get? 3 = some "Fraud-like" ∧
    (mkLabels 5).get? 4 = some "Normal-like" :=
  ⟨by simpa using labels_every_third_fraud 5 3 (by decide),
   by simpa using labels_every_third_fraud 5 4 (by decide)⟩

/-- C2: every failing HTTP outcome terminates the client with exit code 1;
a non-200 response also echoes the response body, and a connection error
also prints the port-forward hint. -/
theorem client_failure_exit_codes (endpoint : String) (n : Nat) (rng : Nat → RNG) :
    (∀ status text preds, status ≠ 200 →
      (test_inference endpoint n rng (.response status text preds)).exitCode = 1 ∧
      "Response: " ++ text ∈
        (test_inference endpoint n rng (.response status text preds)).diagnostics) ∧
    ((test_inference endpoint n rng .connectionError).exitCode = 1 ∧
      "Make sure you have port-forwarding enabled:" ∈
        (test_inference endpoint n rng .connectionError).diagnostics) ∧
    ((test_inference endpoint n rng .timeout).exitCode = 1) ∧
    (∀ msg, (test_inference endpoint n rng (.otherError msg)).exitCode = 1) := by
  refine ⟨?_, ⟨rfl, ?_⟩, rfl, fun msg => rfl⟩
  · intro status text preds hstatus
    constructor <;> simp [test_inference, hstatus]
  · simp [test_inference]

/-- Concrete instance of `client_failure_exit_codes`: a 500 response exits 1
and echoes the body. -/
theorem client_failure_exit_codes_witness :
    (test_inference "http://localhost:8080" 2 rngZero
      (.response 500 "boom" [])).exitCode = 1 ∧
    "Response: " ++ "boom" ∈ (test_inference "http://localhost:8080" 2 rngZero
      (.response 500 "boom" [])).diagnostics :=
  (client_failure_exit_codes "http://localhost:8080" 2 rngZero).1
    500 "boom" [] (by decide)

/-- C4: the run performs exactly one POST whose body is
`instances ↦ the generated vectors`, and the fraud probability shown for a
prediction is the entry itself when it is a number, and the entry's second
element when it is a list (of at least two elements). -/
theorem client_payload_and_prob_extraction (endpoint : String) (n : Nat)
    (rng : Nat → RNG) (outcome : HttpOutcome) :
    (test_inference endpoint n rng outcome).requests =
      [JValue.obj [("instances",
        JValue.arr ((mkSamples rng n).map (fun s => JValue.arr (s.map JValue.num))))]] ∧
    (∀ x : ℚ, fraudProbOf (.num x) = .ok (.num x)) ∧
    (∀ v0 v1 : JValue, ∀ rest : List JValue,
      fraudProbOf (.arr (v0 :: v1 :: rest)) = .ok v1) := by
  refine ⟨?_, fun x => rfl, fun v0 v1 rest => rfl⟩
  cases outcome with
  | response status text preds =>
    simp only [test_inference]
    by_cases h : status = 200
    · simp only [h, if_true]
      split <;> rfl
    · simp [h]
  | connectionError => rfl
  | timeout => rfl
  | otherError m => rfl

/-- Concrete instance of `client_payload_and_prob_extraction` on a timeout
outcome with one sample. -/
theorem client_payload_and_prob_extraction_witness :
    (test_inference "u" 1 rngZero .timeout).requests =
      [JValue.obj [("instances",
        JValue.arr ((mkSamples rngZero 1).map (fun s => JValue.arr (s.map JValue.num))))]] ∧
    fraudProbOf (.num (1/2)) = .ok (.num (1/2)) ∧
    fraudProbOf (.arr [.num 0, .num (3/4)]) = .ok (.num (3/4)) :=
  ⟨(client_payload_and_prob_extraction "u" 1 rngZero .timeout).1,
   (client_payload_and_prob_extraction "u" 1 rngZero .timeout).2.1 (1/2),
   (client_payload_and_prob_extraction "u" 1 rngZero .timeout).2.2 (.num 0) (.num (3/4)) []⟩

/-- C9: a 200 response whose predictions list contains a list entry with
fewer than two elements makes the client's `pred[1]` raise; the generic
handler catches it and the client exits 1 even though the request
succeeded. -/
theorem short_list_prediction_exits_one :
    (test_inference "http://localhost:8080/v1/models/fraud-detection:predict"
      1 rngZero (.response 200 "ok" [JValue.arr [JValue.num 0]])).exitCode = 1 ∧
    (test_inference "http://localhost:8080/v1/models/fraud-detection:predict"
      1 rngZero (.response 200 "ok" [JValue.arr [JValue.num 0]])).diagnostics =
      ["❌ Error: " ++ PyError.indexError.msg] :=
  ⟨rfl, rfl⟩

theorem displayLoop_ok (entries : List (JValue × String)) (i : Nat)
    (h : ∀ e ∈ entries, ∃ x : ℚ, fraudProbOf e.1 = .ok (.num x)) :
    (displayLoop entries i).2 = none ∧
    (displayLoop entries i).1.length = entries.length := by
  induction entries generalizing i with
  | nil => simp [displayLoop]
  | cons hd rest ih =>
    obtain ⟨p, l⟩ := hd
    obtain ⟨x, hx⟩ := h (p, l) (List.mem_cons_self _ _)
    have hrest : ∀ e ∈ rest, ∃ x : ℚ, fraudProbOf e.1 = .ok (.num x) :=
      fun e he => h e (List.mem_cons_of_mem _ he)
    have hr := ih (i + 1) hrest
    simp only [displayLoop, processEntry, hx, formatProb, List.length_cons]
    exact ⟨hr.1, by rw [hr.2]⟩

/-- C10 counterexample: a 200 response with fewer predictions than samples
need not exit 0 — a short-list prediction entry still raises and exits 1
(predictions list of length 1 against 2 samples). -/
theorem truncated_predictions_not_always_success :
    ([JValue.arr []].length < 2) ∧
    (test_inference "u" 2 rngZero (.response 200 "ok" [JValue.arr []])).exitCode = 1 :=
  ⟨by decide, rfl⟩

/-- C10 (amended): for every 200 response whose predictions list is shorter
than the sample count and whose entries each yield a numeric fraud
probability, the client prints one result line per returned prediction,
reports overall success, and exits 0. -/
theorem truncated_predictions_success (endpoint text : String) (n : Nat)
    (rng : Nat → RNG) (preds : List JValue)
    (hlen : preds.length < n)
    (hok : ∀ p ∈ preds, ∃ x : ℚ, fraudProbOf p = .ok (.num x)) :
    (test_inference endpoint n rng (.response 200 text preds)).exitCode = 0 ∧
    (test_inference endpoint n rng (.response 200 text preds)).resultLines.length =
      preds.length ∧
    "✅ All predictions completed successfully!" ∈
      (test_inference endpoint n rng (.response 200 text preds)).diagnostics := by
  have hz : ∀ e ∈ preds.zip (mkLabels n), ∃ x : ℚ, fraudProbOf e.1 = .ok (.num x) :=
    fun e he => hok e.1 (List.of_mem_zip he).1
  have hd := displayLoop_ok (preds.zip (mkLabels n)) 0 hz
  have hzlen : (preds.zip (mkLabels n)).length = preds.length := by
    have hl : (mkLabels n).length = n := by simp [mkLabels]
    rw [List.length_zip, hl]
    omega
  simp only [test_inference, if_true]
  rw [hd.1]
  simp only [List.mem_singleton]
  exact ⟨trivial, by rw [hd.2, hzlen], trivial⟩

/-- Concrete instance of `truncated_predictions_success`: one numeric
prediction against two samples succeeds with one result line. -/
theorem truncated_predictions_success_witness :
    ([JValue.num (1/10)].length < 2) ∧
    (test_inference "u" 2 rngZero (.response 200 "" [JValue.num (1/10)])).exitCode = 0 ∧
    (test_inference "u" 2 rngZero
      (.response 200 "" [JValue.num (1/10)])).resultLines.length = 1 ∧
    "✅ All predictions completed successfully!" ∈
      (test_inference "u" 2 rngZero (.response 200 "" [JValue.num (1/10)])).diagnostics := by
  have h := truncated_predictions_success "u" "" 2 rngZero [JValue.num (1/10)]
    (by decide)
    (by
      intro p hp
      rw [List.mem_singleton] at hp
      subst hp
      exact ⟨1/10, rfl⟩)
  exact ⟨by decide, h.1, h.2.1, h.2.2⟩
